import Mathlib

/-!
Shallow embedding of the Ceph OSD mClock scheduler facade
(src/osd/scheduler/mClockScheduler.cc).

Conventions of the embedding:
- C++ doubles are modelled as rationals; the values exercised here are
  exact decimal fractions, so no rounding behaviour is lost.
- Machine integers are modelled as Nat or Int with an explicit mod 2^32
  where a cast to uint32_t occurs.
- The bypass deque member named immediate is modelled as a list whose
  head is the front of the deque.  The C++ code pushes at the front on
  enqueue, pushes at the back on enqueue_front, and pops from the back
  on dequeue, so the FIFO head of the bypass queue is the back of the
  deque, i.e. the last element of the list.
- Writes to the shared configuration store and to the monitor channel
  are external effects; they are recorded in an effect log rather than
  mutating the Config snapshot, since the store itself is an external
  collaborator.
- Sites guarded by a failing assertion (which aborts the process) are
  modelled as Option results, with none standing for the abort.
-/

namespace Ceph

/-- Modelled from the spec: the closed enum of operation classes
(declared in the scheduler header, which is not part of the given
source file).  Only the constructors matter here, not their numeric
values. -/
inductive op_scheduler_class
  | immediate
  | client
  | background_recovery
  | background_best_effort
deriving DecidableEq, Repr

/-- Modelled from the spec: the scheduling identity, pairing the
operation class with a client profile id (only meaningful for the
client class). -/
structure scheduler_id_t where
  class_id : op_scheduler_class
  client_profile_id : ℕ
deriving DecidableEq, Repr

/-- Modelled from the spec: the dmclock ClientInfo triple
(reservation, weight, limit), all stored as doubles by the QoS
engine. -/
structure ClientInfo where
  res : ℚ
  wgt : ℚ
  lim : ℚ
deriving DecidableEq, Repr

/-- Modelled from the spec: the profile-level fractional allocation
triple (res_frac, weight, lim_frac). -/
structure ClientAllocs where
  res : ℚ
  wgt : ℚ
  lim : ℚ
deriving DecidableEq, Repr

/-- The per-class allocation table.  The C++ code stores these in a
fixed array indexed by op_scheduler_class; the two background classes
and the client class are the populated slots. -/
structure AllocsTable where
  client : ClientAllocs
  background_recovery : ClientAllocs
  background_best_effort : ClientAllocs
deriving DecidableEq, Repr

/-- Modelled from the spec: the dedicated sentinel constant meaning
"no minimum reservation" (declared in the scheduler header). -/
def default_min : ℚ := 0

/-- Modelled from the spec: the dedicated sentinel constant meaning
"no upper limit" (declared in the scheduler header; a maximal double
value). -/
def default_max : ℚ := 2 ^ 1024

/-- The ClientRegistry state: a default ClientInfo for external
clients, an open-ended per-client override map (populated by an
external collaborator), and one ClientInfo per internal class.  The
C++ code stores the internal infos in a fixed array indexed by
class. -/
structure ClientRegistry where
  default_external_client_info : ClientInfo
  external_client_infos : List (ℕ × ClientInfo)
  background_recovery_info : ClientInfo
  background_best_effort_info : ClientInfo
deriving DecidableEq, Repr

/-- Modelled from the spec: a work item, carrying its classification
(the external classification function is outside this core), its raw
cost accessor and its settable qos cost field. -/
structure OpSchedulerItem where
  sched_class : op_scheduler_class
  client_profile_id : ℕ
  cost : ℤ
  qos_cost : ℕ
deriving DecidableEq, Repr

/-- Modelled from the spec: the external classification function
yielding the scheduling identity of an item. -/
def get_scheduler_id (item : OpSchedulerItem) : scheduler_id_t :=
  { class_id := item.sched_class, client_profile_id := item.client_profile_id }

/-- Modelled from the spec: the dequeue outcome, a tagged union of a
ready item and a retry deadline (the C++ WorkItem variant). -/
inductive WorkItem
  | item (i : OpSchedulerItem)
  | future (t : ℚ)
deriving DecidableEq, Repr

/-- The snapshot of the configuration store consulted by this unit,
one field per tracked key (typed get accessors in the C++ code). -/
structure Config where
  osd_mclock_scheduler_client_res : ℚ
  osd_mclock_scheduler_client_wgt : ℕ
  osd_mclock_scheduler_client_lim : ℚ
  osd_mclock_scheduler_background_recovery_res : ℚ
  osd_mclock_scheduler_background_recovery_wgt : ℕ
  osd_mclock_scheduler_background_recovery_lim : ℚ
  osd_mclock_scheduler_background_best_effort_res : ℚ
  osd_mclock_scheduler_background_best_effort_wgt : ℕ
  osd_mclock_scheduler_background_best_effort_lim : ℚ
  osd_mclock_max_capacity_iops_hdd : ℚ
  osd_mclock_max_capacity_iops_ssd : ℚ
  osd_mclock_max_sequential_bandwidth_hdd : ℕ
  osd_mclock_max_sequential_bandwidth_ssd : ℕ
  osd_mclock_profile : String
deriving DecidableEq, Repr

/-- External effects issued by the scheduler: writing a config default,
applying pending config changes, and the fire-and-forget monitor
command removing a key (the config rm command naming a target and a
key). -/
inductive Effect
  | setDefault (key : String) (value : ℚ)
  | applyChanges
  | monCommand (who : String) (key : String)
deriving DecidableEq, Repr

/-- The per-shard scheduler state.  The scheduler field stands for the
external QoS engine queue, modelled minimally as the list of submitted
(item, identity, cost) requests; the embedding only needs that the
engine is untouched on the bypass path and reports empty when it holds
no requests. -/
structure mClockScheduler where
  whoami : ℤ
  num_shards : ℕ
  shard_id : ℤ
  is_rotational : Bool
  monc : Bool
  mclock_profile : String
  client_allocs : AllocsTable
  client_registry : ClientRegistry
  osd_bandwidth_cost_per_io : ℚ
  osd_bandwidth_capacity_per_shard : ℚ
  immediate : List OpSchedulerItem
  scheduler : List (OpSchedulerItem × scheduler_id_t × ℕ)
deriving DecidableEq, Repr

/-- The get_res lambda of ClientRegistry::update_from_config: a
nonzero fraction scales by the capacity per shard, zero selects the
"no minimum" sentinel. -/
def get_res (capacity_per_shard : ℚ) (res : ℚ) : ℚ :=
  if res ≠ 0 then res * capacity_per_shard else default_min

/-- The get_lim lambda of ClientRegistry::update_from_config: a
nonzero fraction scales by the capacity per shard, zero selects the
"no limit" sentinel. -/
def get_lim (capacity_per_shard : ℚ) (lim : ℚ) : ℚ :=
  if lim ≠ 0 then lim * capacity_per_shard else default_max

/-- ClientRegistry::update_from_config: rebuilds the default external
ClientInfo and the two internal ClientInfos from the configured
fractions and weights.  The override map is left untouched. -/
def ClientRegistry.update_from_config (conf : Config) (capacity_per_shard : ℚ)
    (r : ClientRegistry) : ClientRegistry :=
  { r with
    default_external_client_info :=
      { res := get_res capacity_per_shard conf.osd_mclock_scheduler_client_res,
        wgt := (conf.osd_mclock_scheduler_client_wgt : ℚ),
        lim := get_lim capacity_per_shard conf.osd_mclock_scheduler_client_lim },
    background_recovery_info :=
      { res := get_res capacity_per_shard conf.osd_mclock_scheduler_background_recovery_res,
        wgt := (conf.osd_mclock_scheduler_background_recovery_wgt : ℚ),
        lim := get_lim capacity_per_shard conf.osd_mclock_scheduler_background_recovery_lim },
    background_best_effort_info :=
      { res := get_res capacity_per_shard conf.osd_mclock_scheduler_background_best_effort_res,
        wgt := (conf.osd_mclock_scheduler_background_best_effort_wgt : ℚ),
        lim := get_lim capacity_per_shard conf.osd_mclock_scheduler_background_best_effort_lim } }

/-- ClientRegistry::get_external_client: the per-client override if
present, else the default external ClientInfo. -/
def ClientRegistry.get_external_client (r : ClientRegistry) (client : ℕ) : ClientInfo :=
  match r.external_client_infos.lookup client with
  | none => r.default_external_client_info
  | some info => info

/-- ClientRegistry::get_info: dispatch by class.  Looking up the
immediate class hits a failing assertion (modelled as none); the
client class consults the override map with default fallback; the two
internal classes return their stored infos. -/
def ClientRegistry.get_info (r : ClientRegistry) (id : scheduler_id_t) :
    Option ClientInfo :=
  match id.class_id with
  | op_scheduler_class.immediate => none
  | op_scheduler_class.client => some (r.get_external_client id.client_profile_id)
  | op_scheduler_class.background_recovery => some r.background_recovery_info
  | op_scheduler_class.background_best_effort => some r.background_best_effort_info

/-- mClockScheduler::set_osd_capacity_params_from_config: select the
rotational or solid-state capacity keys, clamp both capacities to at
least 1, and derive the cost per IO and the bandwidth capacity per
shard. -/
def set_osd_capacity_params_from_config (conf : Config) (s : mClockScheduler) :
    mClockScheduler :=
  let osd_bandwidth_capacity : ℕ :=
    if s.is_rotational then conf.osd_mclock_max_sequential_bandwidth_hdd
    else conf.osd_mclock_max_sequential_bandwidth_ssd
  let osd_iop_capacity : ℚ :=
    if s.is_rotational then conf.osd_mclock_max_capacity_iops_hdd
    else conf.osd_mclock_max_capacity_iops_ssd
  let osd_bandwidth_capacity : ℕ := max 1 osd_bandwidth_capacity
  let osd_iop_capacity : ℚ := max 1 osd_iop_capacity
  { s with
    osd_bandwidth_cost_per_io := (osd_bandwidth_capacity : ℚ) / osd_iop_capacity,
    osd_bandwidth_capacity_per_shard :=
      (osd_bandwidth_capacity : ℚ) / (s.num_shards : ℚ) }

/-- mClockScheduler::set_mclock_profile: re-read the profile name from
configuration. -/
def set_mclock_profile (conf : Config) (s : mClockScheduler) : mClockScheduler :=
  { s with mclock_profile := conf.osd_mclock_profile }

/-- mClockScheduler::set_balanced_profile_allocations. -/
def set_balanced_profile_allocations (s : mClockScheduler) : mClockScheduler :=
  { s with client_allocs :=
    { client := { res := 0.4, wgt := 1.0, lim := 1.0 },
      background_recovery := { res := 0.4, wgt := 1.0, lim := 0.7 },
      background_best_effort := { res := 0.2, wgt := 1.0, lim := 0.0 } } }

/-- mClockScheduler::set_high_recovery_ops_profile_allocations. -/
def set_high_recovery_ops_profile_allocations (s : mClockScheduler) : mClockScheduler :=
  { s with client_allocs :=
    { client := { res := 0.3, wgt := 1.0, lim := 0.8 },
      background_recovery := { res := 0.6, wgt := 2.0, lim := 0.0 },
      background_best_effort := { res := 0.0, wgt := 1.0, lim := 0.0 } } }

/-- mClockScheduler::set_high_client_ops_profile_allocations. -/
def set_high_client_ops_profile_allocations (s : mClockScheduler) : mClockScheduler :=
  { s with client_allocs :=
    { client := { res := 0.6, wgt := 5.0, lim := 0.0 },
      background_recovery := { res := 0.2, wgt := 1.0, lim := 0.5 },
      background_best_effort := { res := 0.2, wgt := 1.0, lim := 0.0 } } }

/-- mClockScheduler::set_profile_config: only shard id 0 writes the
nine per-class QoS keys as config defaults (weights truncated to
uint64), followed by the apply step of update_configuration.  The
function is parameterised on the shard id and the allocation table it
reads, and returns the effect list it issues. -/
def set_profile_config (shard_id : ℤ) (client_allocs : AllocsTable) : List Effect :=
  if shard_id > 0 then []
  else
    let client := client_allocs.client
    let recov := client_allocs.background_recovery
    let best_effort := client_allocs.background_best_effort
    [ Effect.setDefault "osd_mclock_scheduler_client_res" client.res,
      Effect.setDefault "osd_mclock_scheduler_client_wgt" (client.wgt.floor.toNat : ℚ),
      Effect.setDefault "osd_mclock_scheduler_client_lim" client.lim,
      Effect.setDefault "osd_mclock_scheduler_background_recovery_res" recov.res,
      Effect.setDefault "osd_mclock_scheduler_background_recovery_wgt" (recov.wgt.floor.toNat : ℚ),
      Effect.setDefault "osd_mclock_scheduler_background_recovery_lim" recov.lim,
      Effect.setDefault "osd_mclock_scheduler_background_best_effort_res" best_effort.res,
      Effect.setDefault "osd_mclock_scheduler_background_best_effort_wgt" (best_effort.wgt.floor.toNat : ℚ),
      Effect.setDefault "osd_mclock_scheduler_background_best_effort_lim" best_effort.lim,
      Effect.applyChanges ]

/-- mClockScheduler::enable_mclock_profile_settings: nothing for the
custom profile; one of the three table setters for the recognized
profiles followed by set_profile_config; any other profile name hits a
failing assertion (none). -/
def enable_mclock_profile_settings (s : mClockScheduler) :
    Option (mClockScheduler × List Effect) :=
  if s.mclock_profile = "custom" then some (s, [])
  else if s.mclock_profile = "balanced" then
    let s := set_balanced_profile_allocations s
    some (s, set_profile_config s.shard_id s.client_allocs)
  else if s.mclock_profile = "high_recovery_ops" then
    let s := set_high_recovery_ops_profile_allocations s
    some (s, set_profile_config s.shard_id s.client_allocs)
  else if s.mclock_profile = "high_client_ops" then
    let s := set_high_client_ops_profile_allocations s
    some (s, set_profile_config s.shard_id s.client_allocs)
  else none

/-- mClockScheduler::calc_scaled_cost: the raw item cost (a C++ int)
is floored at 1 and converted to uint32, the bandwidth cost per IO (a
double) is truncated to uint32, and the two are added in uint32
arithmetic. -/
def calc_scaled_cost (s : mClockScheduler) (item_cost : ℤ) : ℕ :=
  let cost : ℕ := (max 1 item_cost).toNat
  let cost_per_io : ℕ := s.osd_bandwidth_cost_per_io.floor.toNat % 2 ^ 32
  (cost_per_io + cost) % 2 ^ 32

/-- mClockScheduler::enqueue: an immediate-class item is pushed at the
front of the bypass deque (the back is the FIFO head); any other item
gets its scaled cost attached and is submitted to the QoS engine. -/
def enqueue (s : mClockScheduler) (item : OpSchedulerItem) : mClockScheduler :=
  let id := get_scheduler_id item
  if id.class_id = op_scheduler_class.immediate then
    { s with immediate := item :: s.immediate }
  else
    let cost := calc_scaled_cost s item.cost
    let item := { item with qos_cost := cost }
    { s with scheduler := s.scheduler ++ [(item, id, cost)] }

/-- mClockScheduler::enqueue_front: push at the back of the bypass
deque, which is the position served next. -/
def enqueue_front (s : mClockScheduler) (item : OpSchedulerItem) : mClockScheduler :=
  { s with immediate := s.immediate ++ [item] }

/-- mClockScheduler::dequeue: if the bypass deque is non-empty, pop
and return its back; otherwise pull from the QoS engine.  An engine
answer of None hits a failing assertion (modelled as none); a ready
request transfers the item out. -/
def dequeue (s : mClockScheduler) : Option (WorkItem × mClockScheduler) :=
  match s.immediate.getLast? with
  | some it =>
    some (WorkItem.item it, { s with immediate := s.immediate.dropLast })
  | none =>
    match s.scheduler with
    | [] => none
    | (item, _, _) :: rest => some (WorkItem.item item, { s with scheduler := rest })

/-- The fixed list of the nine per-class QoS keys, in the order the
get_changed_key lambda of handle_conf_change scans them. -/
def qos_params : List String :=
  [ "osd_mclock_scheduler_client_res",
    "osd_mclock_scheduler_client_wgt",
    "osd_mclock_scheduler_client_lim",
    "osd_mclock_scheduler_background_recovery_res",
    "osd_mclock_scheduler_background_recovery_wgt",
    "osd_mclock_scheduler_background_recovery_lim",
    "osd_mclock_scheduler_background_best_effort_res",
    "osd_mclock_scheduler_background_best_effort_wgt",
    "osd_mclock_scheduler_background_best_effort_lim" ]

/-- The get_changed_key lambda of handle_conf_change: the first of the
nine QoS keys present in the changed set, if any. -/
def get_changed_key (changed : List String) : Option String :=
  qos_params.find? (fun qp => changed.contains qp)

/-- First block of handle_conf_change: reaction to a change of an IOPS
capacity key.  Recompute capacity; if the profile is not custom,
re-enable the profile settings (which can assert on an invalid
profile); always refresh the registry. -/
def conf_change_iops_block (conf : Config) (changed : List String)
    (s : mClockScheduler) : Option (mClockScheduler × List Effect) :=
  if changed.contains "osd_mclock_max_capacity_iops_hdd"
      || changed.contains "osd_mclock_max_capacity_iops_ssd" then
    let s := set_osd_capacity_params_from_config conf s
    match (if s.mclock_profile ≠ "custom" then enable_mclock_profile_settings s
           else some (s, [])) with
    | none => none
    | some (s, effs) =>
      some ({ s with client_registry :=
                (ClientRegistry.update_from_config conf
                  s.osd_bandwidth_capacity_per_shard s.client_registry) }, effs)
  else some (s, [])

/-- Second block of handle_conf_change: reaction to a change of a
bandwidth capacity key.  Recompute capacity and refresh the registry;
profile allocations are not touched on this path. -/
def conf_change_bw_block (conf : Config) (changed : List String)
    (s : mClockScheduler) : mClockScheduler × List Effect :=
  if changed.contains "osd_mclock_max_sequential_bandwidth_hdd"
      || changed.contains "osd_mclock_max_sequential_bandwidth_ssd" then
    let s := set_osd_capacity_params_from_config conf s
    ({ s with client_registry :=
        (ClientRegistry.update_from_config conf
          s.osd_bandwidth_capacity_per_shard s.client_registry) }, [])
  else (s, [])

/-- Third block of handle_conf_change: reaction to a change of the
profile name key.  Re-read the profile; if it is not custom, re-enable
the profile settings and refresh the registry. -/
def conf_change_profile_block (conf : Config) (changed : List String)
    (s : mClockScheduler) : Option (mClockScheduler × List Effect) :=
  if changed.contains "osd_mclock_profile" then
    let s := set_mclock_profile conf s
    if s.mclock_profile ≠ "custom" then
      match enable_mclock_profile_settings s with
      | none => none
      | some (s, effs) =>
        some ({ s with client_registry :=
                  (ClientRegistry.update_from_config conf
                    s.osd_bandwidth_capacity_per_shard s.client_registry) }, effs)
    else some (s, [])
  else some (s, [])

/-- Fourth block of handle_conf_change: reaction to a change of one of
the nine QoS keys.  Under the custom profile the registry is refreshed
directly from the edited configuration; under a built-in profile the
manual override is rejected by having shard 0 (when a monitor channel
is present) issue a config rm command for the key against the generic
osd target and this node's osd target. -/
def conf_change_qos_block (conf : Config) (changed : List String)
    (s : mClockScheduler) : mClockScheduler × List Effect :=
  match get_changed_key changed with
  | some key =>
    if s.mclock_profile = "custom" then
      ({ s with client_registry :=
          (ClientRegistry.update_from_config conf
            s.osd_bandwidth_capacity_per_shard s.client_registry) }, [])
    else if s.shard_id = 0 ∧ s.monc = true then
      (s, [ Effect.monCommand "osd" key,
            Effect.monCommand ("osd." ++ toString s.whoami) key ])
    else (s, [])
  | none => (s, [])

/-- mClockScheduler::handle_conf_change: the four reaction blocks in
source order, threading the state and accumulating the issued
effects.  A failing assertion in a block aborts the whole handler. -/
def handle_conf_change (conf : Config) (changed : List String)
    (s : mClockScheduler) : Option (mClockScheduler × List Effect) :=
  match conf_change_iops_block conf changed s with
  | none => none
  | some (s1, e1) =>
    let (s2, e2) := conf_change_bw_block conf changed s1
    match conf_change_profile_block conf changed s2 with
    | none => none
    | some (s3, e3) =>
      let (s4, e4) := conf_change_qos_block conf changed s3
      some (s4, e1 ++ e2 ++ e3 ++ e4)


/-! Concrete fixtures used by theorem statements and witnesses. -/

/-- A concrete client registry. -/
def reg0 : ClientRegistry :=
  { default_external_client_info := { res := 0, wgt := 1, lim := 0 },
    external_client_infos := [],
    background_recovery_info := { res := 0, wgt := 1, lim := 0 },
    background_best_effort_info := { res := 0, wgt := 1, lim := 0 } }

/-- A concrete configuration snapshot: balanced profile, bandwidth
capacity 200 and IOPS capacity 100 on both device kinds. -/
def conf0 : Config :=
  { osd_mclock_scheduler_client_res := 0.4,
    osd_mclock_scheduler_client_wgt := 1,
    osd_mclock_scheduler_client_lim := 1.0,
    osd_mclock_scheduler_background_recovery_res := 0.4,
    osd_mclock_scheduler_background_recovery_wgt := 1,
    osd_mclock_scheduler_background_recovery_lim := 0.7,
    osd_mclock_scheduler_background_best_effort_res := 0.2,
    osd_mclock_scheduler_background_best_effort_wgt := 1,
    osd_mclock_scheduler_background_best_effort_lim := 0,
    osd_mclock_max_capacity_iops_hdd := 100,
    osd_mclock_max_capacity_iops_ssd := 100,
    osd_mclock_max_sequential_bandwidth_hdd := 200,
    osd_mclock_max_sequential_bandwidth_ssd := 200,
    osd_mclock_profile := "balanced" }

/-- A concrete scheduler state: node 7, one shard, shard id 0, a
monitor channel present, balanced profile, empty queues. -/
def base : mClockScheduler :=
  { whoami := 7,
    num_shards := 1,
    shard_id := 0,
    is_rotational := true,
    monc := true,
    mclock_profile := "balanced",
    client_allocs :=
      { client := { res := 0.4, wgt := 1, lim := 1 },
        background_recovery := { res := 0.4, wgt := 1, lim := 0.7 },
        background_best_effort := { res := 0.2, wgt := 1, lim := 0 } },
    client_registry := reg0,
    osd_bandwidth_cost_per_io := 2,
    osd_bandwidth_capacity_per_shard := 200,
    immediate := [],
    scheduler := [] }

/-- The base state with its capacity model derived from conf0:
bandwidth 200, IOPS 100, hence cost per IO 2. -/
def sched200 : mClockScheduler := set_osd_capacity_params_from_config conf0 base

/-- A concrete immediate-class item. -/
def itemImm : OpSchedulerItem :=
  { sched_class := op_scheduler_class.immediate, client_profile_id := 0,
    cost := 5, qos_cost := 0 }

/-! Helper lemmas about the changed-key scan of handle_conf_change. -/

/-- A changed set consisting only of QoS keys does not contain any
other key. -/
lemma not_mem_of_all_qos {changed : List String}
    (hall : ∀ x ∈ changed, x ∈ qos_params) {a : String} (ha : a ∉ qos_params) :
    a ∉ changed :=
  fun hmem => ha (hall a hmem)

/-- Scanning a single-key changed set finds exactly that key. -/
lemma get_changed_key_single {k : String} (hk : k ∈ qos_params) :
    get_changed_key [k] = some k := by
  fin_cases hk <;> rfl

/-- Scanning a non-empty changed set of QoS keys finds the first QoS
key, in the fixed scan order, that the set contains. -/
lemma get_changed_key_exists {changed : List String}
    (hall : ∀ x ∈ changed, x ∈ qos_params) (hne : changed ≠ []) :
    ∃ k, get_changed_key changed = some k ∧ k ∈ qos_params ∧
      changed.contains k = true := by
  cases hfk : get_changed_key changed with
  | some k =>
    exact ⟨k, rfl, List.mem_of_find?_eq_some hfk, List.find?_some hfk⟩
  | none =>
    exfalso
    obtain ⟨x, hx⟩ : ∃ x, x ∈ changed := by
      cases changed with
      | nil => exact absurd rfl hne
      | cons y ys => exact ⟨y, List.mem_cons_self y ys⟩
    have hnp := List.find?_eq_none.mp hfk x (hall x hx)
    exact hnp (by simpa using hx)

/-! The claims. -/

/-- C4: each of the three named profiles sets the per-class
(reservation fraction, weight, limit fraction) allocations exactly to
the table of the design. -/
theorem profile_allocations_table (s : mClockScheduler) :
    (set_balanced_profile_allocations s).client_allocs =
      { client := { res := 0.4, wgt := 1, lim := 1.0 },
        background_recovery := { res := 0.4, wgt := 1, lim := 0.7 },
        background_best_effort := { res := 0.2, wgt := 1, lim := 0 } } ∧
    (set_high_recovery_ops_profile_allocations s).client_allocs =
      { client := { res := 0.3, wgt := 1, lim := 0.8 },
        background_recovery := { res := 0.6, wgt := 2, lim := 0 },
        background_best_effort := { res := 0, wgt := 1, lim := 0 } } ∧
    (set_high_client_ops_profile_allocations s).client_allocs =
      { client := { res := 0.6, wgt := 5, lim := 0 },
        background_recovery := { res := 0.2, wgt := 1, lim := 0.5 },
        background_best_effort := { res := 0.2, wgt := 1, lim := 0 } } := by
  refine ⟨?_, ?_, ?_⟩ <;>
    norm_num [set_balanced_profile_allocations,
      set_high_recovery_ops_profile_allocations,
      set_high_client_ops_profile_allocations]

/-- C9: enqueue_front of an item followed immediately by dequeue
returns that item and restores the previous state, whatever was
already queued. -/
theorem enqueue_front_dequeue_returns_item (s : mClockScheduler)
    (item : OpSchedulerItem) :
    dequeue (enqueue_front s item) = some (WorkItem.item item, s) := by
  simp [enqueue_front, dequeue]

/-- C5: the reservation and limit conversions of update_from_config
scale a nonzero fraction by the capacity per shard and map a zero
fraction to the respective sentinel, for every fraction in the unit
interval. -/
theorem get_res_get_lim_spec (capacity_per_shard frac : ℚ)
    (h0 : 0 ≤ frac) (h1 : frac ≤ 1) :
    (frac ≠ 0 →
       get_res capacity_per_shard frac = frac * capacity_per_shard ∧
       get_lim capacity_per_shard frac = frac * capacity_per_shard) ∧
    (frac = 0 →
       get_res capacity_per_shard frac = default_min ∧
       get_lim capacity_per_shard frac = default_max) := by
  constructor <;> intro h <;> simp [get_res, get_lim, h]

/-- Witness for C5 at capacity 200 and fraction one half. -/
theorem get_res_get_lim_spec_witness :
    get_res 200 (1 / 2) = (1 / 2) * 200 ∧ get_lim 200 (1 / 2) = (1 / 2) * 200 :=
  (get_res_get_lim_spec 200 (1 / 2) (by norm_num) (by norm_num)).1 (by norm_num)

/-- C2: absent uint32 overflow, the scaled cost equals the truncated
bandwidth-per-IO cost plus the raw cost floored at 1; with bandwidth
capacity 200 and IOPS capacity 100, raw cost 10 scales to 12 and raw
cost 0 scales to 3. -/
theorem calc_scaled_cost_spec (s : mClockScheduler) (raw : ℤ)
    (h : s.osd_bandwidth_cost_per_io.floor.toNat + (max 1 raw).toNat < 2 ^ 32) :
    calc_scaled_cost s raw
        = s.osd_bandwidth_cost_per_io.floor.toNat + (max 1 raw).toNat ∧
    calc_scaled_cost sched200 10 = 12 ∧
    calc_scaled_cost sched200 0 = 3 := by
  have hio : sched200.osd_bandwidth_cost_per_io = 2 := by
    norm_num [sched200, set_osd_capacity_params_from_config, conf0, base, max_def]
  refine ⟨?_, ?_, ?_⟩
  · have h1 : s.osd_bandwidth_cost_per_io.floor.toNat < 2 ^ 32 :=
      lt_of_le_of_lt (Nat.le_add_right _ _) h
    simp only [calc_scaled_cost]
    rw [Nat.mod_eq_of_lt h1, Nat.mod_eq_of_lt h]
  · simp only [calc_scaled_cost, hio]
    decide
  · simp only [calc_scaled_cost, hio]
    decide

/-- Witness for C2 at the base state (cost per IO 2) and raw cost 10. -/
theorem calc_scaled_cost_spec_witness :
    base.osd_bandwidth_cost_per_io.floor.toNat + (max 1 (10 : ℤ)).toNat < 2 ^ 32 ∧
    calc_scaled_cost base 10
        = base.osd_bandwidth_cost_per_io.floor.toNat + (max 1 (10 : ℤ)).toNat :=
  ⟨by decide, (calc_scaled_cost_spec base 10 (by decide)).1⟩

/-- C7: the three invariant violations abort: a QoS parameter lookup
for an immediate-class identity, an unrecognized profile name, and an
empty answer from the QoS engine when the bypass queue was already
found empty. -/
theorem fatal_invariant_conditions (r : ClientRegistry) (pid : ℕ)
    (sbad se : mClockScheduler)
    (hbad : sbad.mclock_profile ≠ "custom" ∧ sbad.mclock_profile ≠ "balanced" ∧
            sbad.mclock_profile ≠ "high_recovery_ops" ∧
            sbad.mclock_profile ≠ "high_client_ops")
    (he1 : se.immediate = []) (he2 : se.scheduler = []) :
    ClientRegistry.get_info r
        { class_id := op_scheduler_class.immediate, client_profile_id := pid } = none ∧
    enable_mclock_profile_settings sbad = none ∧
    dequeue se = none := by
  obtain ⟨hc1, hc2, hc3, hc4⟩ := hbad
  refine ⟨rfl, ?_, ?_⟩
  · simp [enable_mclock_profile_settings, hc1, hc2, hc3, hc4]
  · simp [dequeue, he1, he2]

/-- Witness for C7: a concrete registry, a state with profile name foo
and a state with both queues empty. -/
theorem fatal_invariant_conditions_witness :
    ClientRegistry.get_info reg0
        { class_id := op_scheduler_class.immediate, client_profile_id := 0 } = none ∧
    enable_mclock_profile_settings { base with mclock_profile := "foo" } = none ∧
    dequeue base = none :=
  fatal_invariant_conditions reg0 0 { base with mclock_profile := "foo" } base
    ⟨by decide, by decide, by decide, by decide⟩ rfl rfl

/-- C1: with a non-empty bypass queue, dequeue pops and returns the
FIFO head of the bypass queue (the back of the deque) and leaves the
QoS engine untouched; enqueueing one immediate item into an empty
scheduler and dequeueing once returns that exact item and leaves both
queues empty. -/
theorem dequeue_bypass_preempts (s s0 : mClockScheduler) (item : OpSchedulerItem)
    (h : s.immediate ≠ [])
    (hclass : item.sched_class = op_scheduler_class.immediate)
    (h0 : s0.immediate = []) (hsch : s0.scheduler = []) :
    (∃ it, s.immediate.getLast? = some it ∧
       dequeue s = some (WorkItem.item it, { s with immediate := s.immediate.dropLast })) ∧
    (∃ s1, dequeue (enqueue s0 item) = some (WorkItem.item item, s1) ∧
       s1.immediate = [] ∧ s1.scheduler = []) := by
  constructor
  · cases hl : s.immediate.getLast? with
    | none => exact absurd (by simpa using hl) h
    | some it => exact ⟨it, rfl, by simp [dequeue, hl]⟩
  · refine ⟨{ enqueue s0 item with immediate := [] }, ?_, rfl, ?_⟩
    · simp [enqueue, get_scheduler_id, hclass, dequeue, h0]
    · simp [enqueue, get_scheduler_id, hclass, hsch]

/-- Witness for C1: one immediate item enqueued into the empty base
state. -/
theorem dequeue_bypass_preempts_witness :
    (∃ it, (enqueue base itemImm).immediate.getLast? = some it ∧
       dequeue (enqueue base itemImm) =
         some (WorkItem.item it,
           { enqueue base itemImm with
               immediate := (enqueue base itemImm).immediate.dropLast })) ∧
    (∃ s1, dequeue (enqueue base itemImm) = some (WorkItem.item itemImm, s1) ∧
       s1.immediate = [] ∧ s1.scheduler = []) :=
  dequeue_bypass_preempts (enqueue base itemImm) base itemImm (by decide) rfl rfl rfl


/-- C8: selecting a non-custom profile writes the nine profile-derived
per-class QoS values as config defaults followed by an apply step
exactly when the shard identity is 0; on any other shard it writes
nothing. -/
theorem set_profile_config_shard_gating (s : mClockScheduler)
    (hp : s.mclock_profile = "balanced" ∨ s.mclock_profile = "high_recovery_ops" ∨
          s.mclock_profile = "high_client_ops")
    (hsh : 0 ≤ s.shard_id) :
    ∃ s' effs, enable_mclock_profile_settings s = some (s', effs) ∧
      (s.mclock_profile = "balanced" →
         s'.client_allocs = (set_balanced_profile_allocations s).client_allocs) ∧
      (s.mclock_profile = "high_recovery_ops" →
         s'.client_allocs = (set_high_recovery_ops_profile_allocations s).client_allocs) ∧
      (s.mclock_profile = "high_client_ops" →
         s'.client_allocs = (set_high_client_ops_profile_allocations s).client_allocs) ∧
      (s.shard_id = 0 →
         effs = [ Effect.setDefault "osd_mclock_scheduler_client_res"
                    s'.client_allocs.client.res,
                  Effect.setDefault "osd_mclock_scheduler_client_wgt"
                    (s'.client_allocs.client.wgt.floor.toNat : ℚ),
                  Effect.setDefault "osd_mclock_scheduler_client_lim"
                    s'.client_allocs.client.lim,
                  Effect.setDefault "osd_mclock_scheduler_background_recovery_res"
                    s'.client_allocs.background_recovery.res,
                  Effect.setDefault "osd_mclock_scheduler_background_recovery_wgt"
                    (s'.client_allocs.background_recovery.wgt.floor.toNat : ℚ),
                  Effect.setDefault "osd_mclock_scheduler_background_recovery_lim"
                    s'.client_allocs.background_recovery.lim,
                  Effect.setDefault "osd_mclock_scheduler_background_best_effort_res"
                    s'.client_allocs.background_best_effort.res,
                  Effect.setDefault "osd_mclock_scheduler_background_best_effort_wgt"
                    (s'.client_allocs.background_best_effort.wgt.floor.toNat : ℚ),
                  Effect.setDefault "osd_mclock_scheduler_background_best_effort_lim"
                    s'.client_allocs.background_best_effort.lim,
                  Effect.applyChanges ]) ∧
      (s.shard_id ≠ 0 → effs = []) := by
  rcases hp with hp | hp | hp
  · refine ⟨set_balanced_profile_allocations s,
      set_profile_config (set_balanced_profile_allocations s).shard_id
        (set_balanced_profile_allocations s).client_allocs,
      by simp [enable_mclock_profile_settings, hp], ?_, ?_, ?_, ?_, ?_⟩
    · intro _; rfl
    · intro hcon; rw [hp] at hcon; exact absurd hcon (by decide)
    · intro hcon; rw [hp] at hcon; exact absurd hcon (by decide)
    · intro h0
      simp [set_profile_config, set_balanced_profile_allocations, h0]
    · intro hne
      have hpos : 0 < s.shard_id := lt_of_le_of_ne hsh (Ne.symm hne)
      simp [set_profile_config, set_balanced_profile_allocations, hpos]
  · refine ⟨set_high_recovery_ops_profile_allocations s,
      set_profile_config (set_high_recovery_ops_profile_allocations s).shard_id
        (set_high_recovery_ops_profile_allocations s).client_allocs,
      by simp [enable_mclock_profile_settings, hp], ?_, ?_, ?_, ?_, ?_⟩
    · intro hcon; rw [hp] at hcon; exact absurd hcon (by decide)
    · intro _; rfl
    · intro hcon; rw [hp] at hcon; exact absurd hcon (by decide)
    · intro h0
      simp [set_profile_config, set_high_recovery_ops_profile_allocations, h0]
    · intro hne
      have hpos : 0 < s.shard_id := lt_of_le_of_ne hsh (Ne.symm hne)
      simp [set_profile_config, set_high_recovery_ops_profile_allocations, hpos]
  · refine ⟨set_high_client_ops_profile_allocations s,
      set_profile_config (set_high_client_ops_profile_allocations s).shard_id
        (set_high_client_ops_profile_allocations s).client_allocs,
      by simp [enable_mclock_profile_settings, hp], ?_, ?_, ?_, ?_, ?_⟩
    · intro hcon; rw [hp] at hcon; exact absurd hcon (by decide)
    · intro hcon; rw [hp] at hcon; exact absurd hcon (by decide)
    · intro _; rfl
    · intro h0
      simp [set_profile_config, set_high_client_ops_profile_allocations, h0]
    · intro hne
      have hpos : 0 < s.shard_id := lt_of_le_of_ne hsh (Ne.symm hne)
      simp [set_profile_config, set_high_client_ops_profile_allocations, hpos]

/-- Witness for C8 at the base state (balanced profile, shard 0). -/
theorem set_profile_config_shard_gating_witness :
    ∃ s' effs, enable_mclock_profile_settings base = some (s', effs) ∧
      (base.mclock_profile = "balanced" →
         s'.client_allocs = (set_balanced_profile_allocations base).client_allocs) ∧
      (base.mclock_profile = "high_recovery_ops" →
         s'.client_allocs = (set_high_recovery_ops_profile_allocations base).client_allocs) ∧
      (base.mclock_profile = "high_client_ops" →
         s'.client_allocs = (set_high_client_ops_profile_allocations base).client_allocs) ∧
      (base.shard_id = 0 →
         effs = [ Effect.setDefault "osd_mclock_scheduler_client_res"
                    s'.client_allocs.client.res,
                  Effect.setDefault "osd_mclock_scheduler_client_wgt"
                    (s'.client_allocs.client.wgt.floor.toNat : ℚ),
                  Effect.setDefault "osd_mclock_scheduler_client_lim"
                    s'.client_allocs.client.lim,
                  Effect.setDefault "osd_mclock_scheduler_background_recovery_res"
                    s'.client_allocs.background_recovery.res,
                  Effect.setDefault "osd_mclock_scheduler_background_recovery_wgt"
                    (s'.client_allocs.background_recovery.wgt.floor.toNat : ℚ),
                  Effect.setDefault "osd_mclock_scheduler_background_recovery_lim"
                    s'.client_allocs.background_recovery.lim,
                  Effect.setDefault "osd_mclock_scheduler_background_best_effort_res"
                    s'.client_allocs.background_best_effort.res,
                  Effect.setDefault "osd_mclock_scheduler_background_best_effort_wgt"
                    (s'.client_allocs.background_best_effort.wgt.floor.toNat : ℚ),
                  Effect.setDefault "osd_mclock_scheduler_background_best_effort_lim"
                    s'.client_allocs.background_best_effort.lim,
                  Effect.applyChanges ]) ∧
      (base.shard_id ≠ 0 → effs = []) :=
  set_profile_config_shard_gating base (Or.inl rfl) (by decide)

/-- C3: a change notification naming a single QoS key, under a
non-custom profile, issues exactly the two remove-key monitor commands
on shard 0 with a monitor channel (leaving the whole state, in
particular the registry, unchanged) and nothing elsewhere; under the
custom profile it refreshes the registry from the edited value and
issues no command. -/
theorem handle_conf_change_single_qos_key (conf : Config) (s : mClockScheduler)
    (k : String) (hk : k ∈ qos_params) :
    (s.mclock_profile ≠ "custom" →
       (s.shard_id = 0 ∧ s.monc = true →
          handle_conf_change conf [k] s =
            some (s, [Effect.monCommand "osd" k,
                      Effect.monCommand ("osd." ++ toString s.whoami) k])) ∧
       (¬(s.shard_id = 0 ∧ s.monc = true) →
          handle_conf_change conf [k] s = some (s, []))) ∧
    (s.mclock_profile = "custom" →
       handle_conf_change conf [k] s =
         some ({ s with client_registry :=
                   (ClientRegistry.update_from_config conf
                     s.osd_bandwidth_capacity_per_shard s.client_registry) }, [])) := by
  have hd1 : ¬("osd_mclock_max_capacity_iops_hdd" = k) := fun h =>
    (by decide : "osd_mclock_max_capacity_iops_hdd" ∉ qos_params) (h.symm ▸ hk)
  have hd2 : ¬("osd_mclock_max_capacity_iops_ssd" = k) := fun h =>
    (by decide : "osd_mclock_max_capacity_iops_ssd" ∉ qos_params) (h.symm ▸ hk)
  have hd3 : ¬("osd_mclock_max_sequential_bandwidth_hdd" = k) := fun h =>
    (by decide : "osd_mclock_max_sequential_bandwidth_hdd" ∉ qos_params) (h.symm ▸ hk)
  have hd4 : ¬("osd_mclock_max_sequential_bandwidth_ssd" = k) := fun h =>
    (by decide : "osd_mclock_max_sequential_bandwidth_ssd" ∉ qos_params) (h.symm ▸ hk)
  have hd5 : ¬("osd_mclock_profile" = k) := fun h =>
    (by decide : "osd_mclock_profile" ∉ qos_params) (h.symm ▸ hk)
  have h1 : conf_change_iops_block conf [k] s = some (s, []) := by
    simp [conf_change_iops_block, hd1, hd2]
  have h2 : conf_change_bw_block conf [k] s = (s, []) := by
    simp [conf_change_bw_block, hd3, hd4]
  have h3 : conf_change_profile_block conf [k] s = some (s, []) := by
    simp [conf_change_profile_block, hd5]
  have hgk : get_changed_key [k] = some k := get_changed_key_single hk
  refine ⟨?_, ?_⟩
  · intro hp
    refine ⟨?_, ?_⟩
    · rintro ⟨h0, hm⟩
      have h4 : conf_change_qos_block conf [k] s =
          (s, [Effect.monCommand "osd" k,
               Effect.monCommand ("osd." ++ toString s.whoami) k]) := by
        simp [conf_change_qos_block, hgk, hp, h0, hm]
      simp [handle_conf_change, h1, h2, h3, h4]
    · intro hnm
      have h4 : conf_change_qos_block conf [k] s = (s, []) := by
        simp [conf_change_qos_block, hgk, hp, hnm]
      simp [handle_conf_change, h1, h2, h3, h4]
  · intro hp
    have h4 : conf_change_qos_block conf [k] s =
        ({ s with client_registry :=
             (ClientRegistry.update_from_config conf
               s.osd_bandwidth_capacity_per_shard s.client_registry) }, []) := by
      simp [conf_change_qos_block, hgk, hp]
    simp [handle_conf_change, h1, h2, h3, h4]

/-- Witness for C3: editing the client reservation key on the base
state (balanced profile, shard 0, monitor channel, node 7). -/
theorem handle_conf_change_single_qos_key_witness :
    handle_conf_change conf0 ["osd_mclock_scheduler_client_res"] base =
      some (base, [Effect.monCommand "osd" "osd_mclock_scheduler_client_res",
                   Effect.monCommand ("osd." ++ toString base.whoami)
                     "osd_mclock_scheduler_client_res"]) :=
  ((handle_conf_change_single_qos_key conf0 base "osd_mclock_scheduler_client_res"
      (by decide)).1 (by decide)).1 ⟨rfl, rfl⟩

/-- C10: when several QoS keys change at once under a non-custom
profile on shard 0 with a monitor channel, remove-key commands are
issued only for the first changed key in the fixed scan order, so
exactly two commands in total. -/
theorem handle_conf_change_multi_qos_keys (conf : Config) (s : mClockScheduler)
    (changed : List String)
    (hall : ∀ x ∈ changed, x ∈ qos_params) (hne : changed ≠ [])
    (hp : s.mclock_profile ≠ "custom") (hsh : s.shard_id = 0) (hm : s.monc = true) :
    ∃ k, get_changed_key changed = some k ∧ k ∈ qos_params ∧
      changed.contains k = true ∧
      handle_conf_change conf changed s =
        some (s, [Effect.monCommand "osd" k,
                  Effect.monCommand ("osd." ++ toString s.whoami) k]) := by
  obtain ⟨k, hgk, hkq, hkc⟩ := get_changed_key_exists hall hne
  have h1 : conf_change_iops_block conf changed s = some (s, []) := by
    simp [conf_change_iops_block,
      not_mem_of_all_qos hall
        (by decide : "osd_mclock_max_capacity_iops_hdd" ∉ qos_params),
      not_mem_of_all_qos hall
        (by decide : "osd_mclock_max_capacity_iops_ssd" ∉ qos_params)]
  have h2 : conf_change_bw_block conf changed s = (s, []) := by
    simp [conf_change_bw_block,
      not_mem_of_all_qos hall
        (by decide : "osd_mclock_max_sequential_bandwidth_hdd" ∉ qos_params),
      not_mem_of_all_qos hall
        (by decide : "osd_mclock_max_sequential_bandwidth_ssd" ∉ qos_params)]
  have h3 : conf_change_profile_block conf changed s = some (s, []) := by
    simp [conf_change_profile_block,
      not_mem_of_all_qos hall
        (by decide : "osd_mclock_profile" ∉ qos_params)]
  have h4 : conf_change_qos_block conf changed s =
      (s, [Effect.monCommand "osd" k,
           Effect.monCommand ("osd." ++ toString s.whoami) k]) := by
    simp [conf_change_qos_block, get_changed_key] at hgk ⊢
    simp [hgk, hp, hsh, hm]
  exact ⟨k, hgk, hkq, hkc, by simp [handle_conf_change, h1, h2, h3, h4]⟩

/-- Witness for C10: both client reservation and weight keys changed
at once on the base state; the reservation key is first in the scan
order. -/
theorem handle_conf_change_multi_qos_keys_witness :
    ∃ k, get_changed_key
        ["osd_mclock_scheduler_client_wgt", "osd_mclock_scheduler_client_res"]
          = some k ∧
      k ∈ qos_params ∧
      ["osd_mclock_scheduler_client_wgt",
        "osd_mclock_scheduler_client_res"].contains k = true ∧
      handle_conf_change conf0
          ["osd_mclock_scheduler_client_wgt", "osd_mclock_scheduler_client_res"]
          base =
        some (base, [Effect.monCommand "osd" k,
                     Effect.monCommand ("osd." ++ toString base.whoami) k]) :=
  handle_conf_change_multi_qos_keys conf0 base
    ["osd_mclock_scheduler_client_wgt", "osd_mclock_scheduler_client_res"]
    (by decide) (by decide) (by decide) rfl rfl

/-- C6: a bandwidth-capacity key change recomputes the capacity model
and refreshes the client registry without touching profile
allocations; an IOPS-capacity key change recomputes the capacity
model, additionally recomputes and republishes the profile allocations
when the active profile is not custom, and always refreshes the client
registry. -/
theorem handle_conf_change_capacity_keys (conf : Config) (s : mClockScheduler)
    (k : String)
    (hk : k = "osd_mclock_max_capacity_iops_hdd" ∨
          k = "osd_mclock_max_capacity_iops_ssd" ∨
          k = "osd_mclock_max_sequential_bandwidth_hdd" ∨
          k = "osd_mclock_max_sequential_bandwidth_ssd")
    (hv : s.mclock_profile = "custom" ∨ s.mclock_profile = "balanced" ∨
          s.mclock_profile = "high_recovery_ops" ∨
          s.mclock_profile = "high_client_ops") :
    ∃ s' effs, handle_conf_change conf [k] s = some (s', effs) ∧
      s'.osd_bandwidth_cost_per_io =
        (set_osd_capacity_params_from_config conf s).osd_bandwidth_cost_per_io ∧
      s'.osd_bandwidth_capacity_per_shard =
        (set_osd_capacity_params_from_config conf s).osd_bandwidth_capacity_per_shard ∧
      s'.client_registry =
        ClientRegistry.update_from_config conf
          (set_osd_capacity_params_from_config conf s).osd_bandwidth_capacity_per_shard
          s.client_registry ∧
      ((k = "osd_mclock_max_capacity_iops_hdd" ∨
        k = "osd_mclock_max_capacity_iops_ssd") →
         (s.mclock_profile = "custom" →
            s'.client_allocs = s.client_allocs ∧ effs = []) ∧
         (s.mclock_profile = "balanced" →
            s'.client_allocs = (set_balanced_profile_allocations s).client_allocs ∧
            effs = set_profile_config s.shard_id
              (set_balanced_profile_allocations s).client_allocs) ∧
         (s.mclock_profile = "high_recovery_ops" →
            s'.client_allocs = (set_high_recovery_ops_profile_allocations s).client_allocs ∧
            effs = set_profile_config s.shard_id
              (set_high_recovery_ops_profile_allocations s).client_allocs) ∧
         (s.mclock_profile = "high_client_ops" →
            s'.client_allocs = (set_high_client_ops_profile_allocations s).client_allocs ∧
            effs = set_profile_config s.shard_id
              (set_high_client_ops_profile_allocations s).client_allocs)) ∧
      ((k = "osd_mclock_max_sequential_bandwidth_hdd" ∨
        k = "osd_mclock_max_sequential_bandwidth_ssd") →
         s'.client_allocs = s.client_allocs ∧ effs = []) := by
  rcases hk with rfl | rfl | rfl | rfl
  · rcases hv with hv | hv | hv | hv
    · have hcomp : handle_conf_change conf ["osd_mclock_max_capacity_iops_hdd"] s =
            some ({ set_osd_capacity_params_from_config conf s with
              client_registry := (ClientRegistry.update_from_config conf
                (set_osd_capacity_params_from_config conf s).osd_bandwidth_capacity_per_shard
                s.client_registry) }, ([] : List Effect)) := by
          simp [handle_conf_change, conf_change_iops_block, conf_change_bw_block,
            conf_change_profile_block, conf_change_qos_block, get_changed_key, qos_params,
            enable_mclock_profile_settings, set_balanced_profile_allocations,
            set_high_recovery_ops_profile_allocations, set_high_client_ops_profile_allocations,
            set_osd_capacity_params_from_config, set_mclock_profile,
            ClientRegistry.update_from_config, hv]
      exact ⟨_, _, hcomp, rfl, rfl, rfl,
        fun _ => ⟨fun _ => ⟨rfl, rfl⟩,
          fun hcon => absurd (hv ▸ hcon) (by decide),
          fun hcon => absurd (hv ▸ hcon) (by decide),
          fun hcon => absurd (hv ▸ hcon) (by decide)⟩,
        fun hcon => absurd hcon (by decide)⟩
    · have hcomp : handle_conf_change conf ["osd_mclock_max_capacity_iops_hdd"] s =
            some ({ set_balanced_profile_allocations (set_osd_capacity_params_from_config conf s) with
              client_registry := (ClientRegistry.update_from_config conf
                (set_osd_capacity_params_from_config conf s).osd_bandwidth_capacity_per_shard
                s.client_registry) }, set_profile_config s.shard_id
              (set_balanced_profile_allocations (set_osd_capacity_params_from_config conf s)).client_allocs) := by
          simp [handle_conf_change, conf_change_iops_block, conf_change_bw_block,
            conf_change_profile_block, conf_change_qos_block, get_changed_key, qos_params,
            enable_mclock_profile_settings, set_balanced_profile_allocations,
            set_high_recovery_ops_profile_allocations, set_high_client_ops_profile_allocations,
            set_osd_capacity_params_from_config, set_mclock_profile,
            ClientRegistry.update_from_config, hv]
      exact ⟨_, _, hcomp, rfl, rfl, rfl,
        fun _ => ⟨fun hcon => absurd (hv ▸ hcon) (by decide),
          fun _ => ⟨rfl, rfl⟩,
          fun hcon => absurd (hv ▸ hcon) (by decide),
          fun hcon => absurd (hv ▸ hcon) (by decide)⟩,
        fun hcon => absurd hcon (by decide)⟩
    · have hcomp : handle_conf_change conf ["osd_mclock_max_capacity_iops_hdd"] s =
            some ({ set_high_recovery_ops_profile_allocations (set_osd_capacity_params_from_config conf s) with
              client_registry := (ClientRegistry.update_from_config conf
                (set_osd_capacity_params_from_config conf s).osd_bandwidth_capacity_per_shard
                s.client_registry) }, set_profile_config s.shard_id
              (set_high_recovery_ops_profile_allocations (set_osd_capacity_params_from_config conf s)).client_allocs) := by
          simp [handle_conf_change, conf_change_iops_block, conf_change_bw_block,
            conf_change_profile_block, conf_change_qos_block, get_changed_key, qos_params,
            enable_mclock_profile_settings, set_balanced_profile_allocations,
            set_high_recovery_ops_profile_allocations, set_high_client_ops_profile_allocations,
            set_osd_capacity_params_from_config, set_mclock_profile,
            ClientRegistry.update_from_config, hv]
      exact ⟨_, _, hcomp, rfl, rfl, rfl,
        fun _ => ⟨fun hcon => absurd (hv ▸ hcon) (by decide),
          fun hcon => absurd (hv ▸ hcon) (by decide),
          fun _ => ⟨rfl, rfl⟩,
          fun hcon => absurd (hv ▸ hcon) (by decide)⟩,
        fun hcon => absurd hcon (by decide)⟩
    · have hcomp : handle_conf_change conf ["osd_mclock_max_capacity_iops_hdd"] s =
            some ({ set_high_client_ops_profile_allocations (set_osd_capacity_params_from_config conf s) with
              client_registry := (ClientRegistry.update_from_config conf
                (set_osd_capacity_params_from_config conf s).osd_bandwidth_capacity_per_shard
                s.client_registry) }, set_profile_config s.shard_id
              (set_high_client_ops_profile_allocations (set_osd_capacity_params_from_config conf s)).client_allocs) := by
          simp [handle_conf_change, conf_change_iops_block, conf_change_bw_block,
            conf_change_profile_block, conf_change_qos_block, get_changed_key, qos_params,
            enable_mclock_profile_settings, set_balanced_profile_allocations,
            set_high_recovery_ops_profile_allocations, set_high_client_ops_profile_allocations,
            set_osd_capacity_params_from_config, set_mclock_profile,
            ClientRegistry.update_from_config, hv]
      exact ⟨_, _, hcomp, rfl, rfl, rfl,
        fun _ => ⟨fun hcon => absurd (hv ▸ hcon) (by decide),
          fun hcon => absurd (hv ▸ hcon) (by decide),
          fun hcon => absurd (hv ▸ hcon) (by decide),
          fun _ => ⟨rfl, rfl⟩⟩,
          fun hcon => absurd hcon (by decide)⟩
  · rcases hv with hv | hv | hv | hv
    · have hcomp : handle_conf_change conf ["osd_mclock_max_capacity_iops_ssd"] s =
            some ({ set_osd_capacity_params_from_config conf s with
              client_registry := (ClientRegistry.update_from_config conf
                (set_osd_capacity_params_from_config conf s).osd_bandwidth_capacity_per_shard
                s.client_registry) }, ([] : List Effect)) := by
          simp [handle_conf_change, conf_change_iops_block, conf_change_bw_block,
            conf_change_profile_block, conf_change_qos_block, get_changed_key, qos_params,
            enable_mclock_profile_settings, set_balanced_profile_allocations,
            set_high_recovery_ops_profile_allocations, set_high_client_ops_profile_allocations,
            set_osd_capacity_params_from_config, set_mclock_profile,
            ClientRegistry.update_from_config, hv]
      exact ⟨_, _, hcomp, rfl, rfl, rfl,
        fun _ => ⟨fun _ => ⟨rfl, rfl⟩,
          fun hcon => absurd (hv ▸ hcon) (by decide),
          fun hcon => absurd (hv ▸ hcon) (by decide),
          fun hcon => absurd (hv ▸ hcon) (by decide)⟩,
        fun hcon => absurd hcon (by decide)⟩
    · have hcomp : handle_conf_change conf ["osd_mclock_max_capacity_iops_ssd"] s =
            some ({ set_balanced_profile_allocations (set_osd_capacity_params_from_config conf s) with
              client_registry := (ClientRegistry.update_from_config conf
                (set_osd_capacity_params_from_config conf s).osd_bandwidth_capacity_per_shard
                s.client_registry) }, set_profile_config s.shard_id
              (set_balanced_profile_allocations (set_osd_capacity_params_from_config conf s)).client_allocs) := by
          simp [handle_conf_change, conf_change_iops_block, conf_change_bw_block,
            conf_change_profile_block, conf_change_qos_block, get_changed_key, qos_params,
            enable_mclock_profile_settings, set_balanced_profile_allocations,
            set_high_recovery_ops_profile_allocations, set_high_client_ops_profile_allocations,
            set_osd_capacity_params_from_config, set_mclock_profile,
            ClientRegistry.update_from_config, hv]
      exact ⟨_, _, hcomp, rfl, rfl, rfl,
        fun _ => ⟨fun hcon => absurd (hv ▸ hcon) (by decide),
          fun _ => ⟨rfl, rfl⟩,
          fun hcon => absurd (hv ▸ hcon) (by decide),
          fun hcon => absurd (hv ▸ hcon) (by decide)⟩,
        fun hcon => absurd hcon (by decide)⟩
    · have hcomp : handle_conf_change conf ["osd_mclock_max_capacity_iops_ssd"] s =
            some ({ set_high_recovery_ops_profile_allocations (set_osd_capacity_params_from_config conf s) with
              client_registry := (ClientRegistry.update_from_config conf
                (set_osd_capacity_params_from_config conf s).osd_bandwidth_capacity_per_shard
                s.client_registry) }, set_profile_config s.shard_id
              (set_high_recovery_ops_profile_allocations (set_osd_capacity_params_from_config conf s)).client_allocs) := by
          simp [handle_conf_change, conf_change_iops_block, conf_change_bw_block,
            conf_change_profile_block, conf_change_qos_block, get_changed_key, qos_params,
            enable_mclock_profile_settings, set_balanced_profile_allocations,
            set_high_recovery_ops_profile_allocations, set_high_client_ops_profile_allocations,
            set_osd_capacity_params_from_config, set_mclock_profile,
            ClientRegistry.update_from_config, hv]
      exact ⟨_, _, hcomp, rfl, rfl, rfl,
        fun _ => ⟨fun hcon => absurd (hv ▸ hcon) (by decide),
          fun hcon => absurd (hv ▸ hcon) (by decide),
          fun _ => ⟨rfl, rfl⟩,
          fun hcon => absurd (hv ▸ hcon) (by decide)⟩,
        fun hcon => absurd hcon (by decide)⟩
    · have hcomp : handle_conf_change conf ["osd_mclock_max_capacity_iops_ssd"] s =
            some ({ set_high_client_ops_profile_allocations (set_osd_capacity_params_from_config conf s) with
              client_registry := (ClientRegistry.update_from_config conf
                (set_osd_capacity_params_from_config conf s).osd_bandwidth_capacity_per_shard
                s.client_registry) }, set_profile_config s.shard_id
              (set_high_client_ops_profile_allocations (set_osd_capacity_params_from_config conf s)).client_allocs) := by
          simp [handle_conf_change, conf_change_iops_block, conf_change_bw_block,
            conf_change_profile_block, conf_change_qos_block, get_changed_key, qos_params,
            enable_mclock_profile_settings, set_balanced_profile_allocations,
            set_high_recovery_ops_profile_allocations, set_high_client_ops_profile_allocations,
            set_osd_capacity_params_from_config, set_mclock_profile,
            ClientRegistry.update_from_config, hv]
      exact ⟨_, _, hcomp, rfl, rfl, rfl,
        fun _ => ⟨fun hcon => absurd (hv ▸ hcon) (by decide),
          fun hcon => absurd (hv ▸ hcon) (by decide),
          fun hcon => absurd (hv ▸ hcon) (by decide),
          fun _ => ⟨rfl, rfl⟩⟩,
          fun hcon => absurd hcon (by decide)⟩
  · have hcomp : handle_conf_change conf ["osd_mclock_max_sequential_bandwidth_hdd"] s =
        some ({ set_osd_capacity_params_from_config conf s with
          client_registry := (ClientRegistry.update_from_config conf
              (set_osd_capacity_params_from_config conf s).osd_bandwidth_capacity_per_shard
              s.client_registry) }, ([] : List Effect)) := by
      simp [handle_conf_change, conf_change_iops_block, conf_change_bw_block,
          conf_change_profile_block, conf_change_qos_block, get_changed_key, qos_params,
          enable_mclock_profile_settings, set_balanced_profile_allocations,
          set_high_recovery_ops_profile_allocations, set_high_client_ops_profile_allocations,
          set_osd_capacity_params_from_config, set_mclock_profile,
          ClientRegistry.update_from_config]
    exact ⟨_, _, hcomp, rfl, rfl, rfl,
        fun hcon => absurd hcon (by decide),
        fun _ => ⟨rfl, rfl⟩⟩
  · have hcomp : handle_conf_change conf ["osd_mclock_max_sequential_bandwidth_ssd"] s =
        some ({ set_osd_capacity_params_from_config conf s with
          client_registry := (ClientRegistry.update_from_config conf
              (set_osd_capacity_params_from_config conf s).osd_bandwidth_capacity_per_shard
              s.client_registry) }, ([] : List Effect)) := by
      simp [handle_conf_change, conf_change_iops_block, conf_change_bw_block,
          conf_change_profile_block, conf_change_qos_block, get_changed_key, qos_params,
          enable_mclock_profile_settings, set_balanced_profile_allocations,
          set_high_recovery_ops_profile_allocations, set_high_client_ops_profile_allocations,
          set_osd_capacity_params_from_config, set_mclock_profile,
          ClientRegistry.update_from_config]
    exact ⟨_, _, hcomp, rfl, rfl, rfl,
        fun hcon => absurd hcon (by decide),
        fun _ => ⟨rfl, rfl⟩⟩


/-- Witness for C6: the rotational IOPS capacity key changed on the
base state (balanced profile). -/
theorem handle_conf_change_capacity_keys_witness :
    ∃ s' effs,
      handle_conf_change conf0 ["osd_mclock_max_capacity_iops_hdd"] base =
        some (s', effs) ∧
      s'.osd_bandwidth_cost_per_io =
        (set_osd_capacity_params_from_config conf0 base).osd_bandwidth_cost_per_io ∧
      s'.osd_bandwidth_capacity_per_shard =
        (set_osd_capacity_params_from_config conf0 base).osd_bandwidth_capacity_per_shard ∧
      s'.client_registry =
        ClientRegistry.update_from_config conf0
          (set_osd_capacity_params_from_config conf0 base).osd_bandwidth_capacity_per_shard
          base.client_registry ∧
      (("osd_mclock_max_capacity_iops_hdd" : String) = "osd_mclock_max_capacity_iops_hdd" ∨
        ("osd_mclock_max_capacity_iops_hdd" : String) = "osd_mclock_max_capacity_iops_ssd" →
         (base.mclock_profile = "custom" →
            s'.client_allocs = base.client_allocs ∧ effs = []) ∧
         (base.mclock_profile = "balanced" →
            s'.client_allocs = (set_balanced_profile_allocations base).client_allocs ∧
            effs = set_profile_config base.shard_id
              (set_balanced_profile_allocations base).client_allocs) ∧
         (base.mclock_profile = "high_recovery_ops" →
            s'.client_allocs = (set_high_recovery_ops_profile_allocations base).client_allocs ∧
            effs = set_profile_config base.shard_id
              (set_high_recovery_ops_profile_allocations base).client_allocs) ∧
         (base.mclock_profile = "high_client_ops" →
            s'.client_allocs = (set_high_client_ops_profile_allocations base).client_allocs ∧
            effs = set_profile_config base.shard_id
              (set_high_client_ops_profile_allocations base).client_allocs)) ∧
      (("osd_mclock_max_capacity_iops_hdd" : String) = "osd_mclock_max_sequential_bandwidth_hdd" ∨
        ("osd_mclock_max_capacity_iops_hdd" : String) = "osd_mclock_max_sequential_bandwidth_ssd" →
         s'.client_allocs = base.client_allocs ∧ effs = []) :=
  handle_conf_change_capacity_keys conf0 base "osd_mclock_max_capacity_iops_hdd"
    (Or.inl rfl) (Or.inr (Or.inl rfl))

end Ceph
